import Mathlib

/-!
Shallow embedding of `script/hassfest/config_flow.py`: the config-flow
validator and generator for the integration registry.

Conventions of the embedding:
* Python `dict[str, X]` values are embedded as association lists
  `List (String × X)`; the dict invariant (distinct keys) is carried as a
  `Nodup` hypothesis where a proof needs it.  `dict.get` is `List.lookup`.
* Python exceptions (`KeyError` from indexing) are embedded as
  `Except String`.
* Python string containment (`pat in s`) is `strContains`, and Python
  `sorted` on strings is insertion sort by code-point lexicographic order
  (`pyStrLe`); both sorts are stable and the order is antisymmetric, so the
  results agree elementwise.
-/

/-- Python `pat in s` on lists of characters: `pat` occurs contiguously. -/
def containsSub (pat : List Char) : List Char → Bool
  | [] => pat.isEmpty
  | c :: rest => pat.isPrefixOf (c :: rest) || containsSub pat rest

/-- Python substring test `pat in s`. -/
def strContains (s pat : String) : Bool := containsSub pat.data s.data

/-- Code-point lexicographic comparison on character lists, as Python
compares strings. -/
def lexLe : List Char → List Char → Bool
  | [], _ => true
  | _ :: _, [] => false
  | a :: as, b :: bs =>
    if a.toNat < b.toNat then true
    else if b.toNat < a.toNat then false
    else lexLe as bs

/-- Python string order `a <= b` (code-point lexicographic). -/
def pyStrLe (a b : String) : Prop := lexLe a.data b.data = true

instance : DecidableRel pyStrLe := fun a b =>
  inferInstanceAs (Decidable (lexLe a.data b.data = true))

/-- Severity of a per-integration notice (`add_error` / `add_warning`). -/
inductive Severity where
  | error
  | warning
deriving DecidableEq, Repr

/-- A notice recorded on an integration by `integration.add_error` or
`integration.add_warning`. -/
structure Notice where
  category : String
  message : String
  severity : Severity
deriving DecidableEq, Repr

/-- An error recorded on the run context by `config.add_error`. -/
structure ConfigError where
  category : String
  message : String
  fixable : Bool
deriving DecidableEq, Repr

/-- Modelled from the spec: the `Integration` record of the
integration-loading subsystem (`script/hassfest/model.py`, not under
`src/`).  `manifestTruthy` is the truthiness of `integration.manifest`
(a possibly-empty mapping), `config_flow` the truthiness of
`integration.manifest.get("config_flow")`, `integration_type` the
integration's declared type, `name` its display name, `translated_name`
the truthiness of `integration.translated_name`, and `configFlowFile`
the contents of `<integration.path>/config_flow.py` when that file
exists. -/
structure Integration where
  domain : String
  manifestTruthy : Bool
  config_flow : Bool
  integration_type : String
  name : String
  translated_name : Bool
  configFlowFile : Option String
deriving DecidableEq, Repr

/-- Modelled from the spec: the `Brand` record of `script/hassfest/model.py`
(not under `src/`): a display name, an optional member-integration list and
optional iot-standards metadata. -/
structure Brand where
  name : String
  integrations : Option (List String)
  iot_standards : Option (List String)
deriving DecidableEq, Repr

/-- Python truthiness of an optional list (`None` and `[]` are falsy). -/
def truthyListOpt : Option (List α) → Bool
  | none => false
  | some l => !l.isEmpty

/-- The filter of `generate_and_validate` and `_generate_v2`:
`integration.manifest` truthy and `integration.config_flow` truthy. -/
def Integration.qualifies (i : Integration) : Bool :=
  i.manifestTruthy && i.config_flow

/-- `UNIQUE_ID_IGNORE` from the source. -/
def UNIQUE_ID_IGNORE : List String := ["huawei_lte", "mqtt", "adguard"]

/-- The nine-way disjunction of discovery entry-point substring tests in
`validate_integration`. -/
def hasDiscoveryStep (config_flow : String) : Bool :=
  strContains config_flow "async_step_discovery"
  || strContains config_flow "async_step_bluetooth"
  || strContains config_flow "async_step_hassio"
  || strContains config_flow "async_step_homekit"
  || strContains config_flow "async_step_mqtt"
  || strContains config_flow "async_step_ssdp"
  || strContains config_flow "async_step_zeroconf"
  || strContains config_flow "async_step_dhcp"
  || strContains config_flow "async_step_usb"

/-- The four-way disjunction of identity-mechanism substring tests in
`validate_integration` (`has_unique_id`). -/
def hasUniqueIdMechanism (config_flow : String) : Bool :=
  strContains config_flow "self.async_set_unique_id"
  || strContains config_flow "self._async_handle_discovery_without_unique_id"
  || strContains config_flow "register_discovery_flow"
  || strContains config_flow "AbstractOAuth2FlowHandler"

/-- `validate_integration`: the notices it records on the integration.
The `Config` argument of the source is reduced to the one field read,
`config.specific_integrations` (truthiness). -/
def validate_integration (specific_integrations : Bool) (integration : Integration) :
    List Notice :=
  match integration.configFlowFile with
  | none =>
    if integration.config_flow then
      [{ category := "config_flow",
         message := "Config flows need to be defined in the file config_flow.py",
         severity := Severity.error }]
    else
      []
  | some config_flow =>
    let needs_unique_id :=
      !(UNIQUE_ID_IGNORE.contains integration.domain) && hasDiscoveryStep config_flow
    if !needs_unique_id then
      []
    else if hasUniqueIdMechanism config_flow then
      []
    else
      [{ category := "config_flow",
         message := "Config flows that are discoverable need to set a unique ID",
         severity :=
           if specific_integrations then Severity.warning else Severity.error }]

/-- The `domains` accumulator of `generate_and_validate`: the two lists of
the exported `FLOWS` mapping. -/
structure V1 where
  integration : List String
  helper : List String
deriving DecidableEq, Repr

/-- The loop body of `generate_and_validate` over the sorted domain list:
looks each domain up (Python dict indexing, `KeyError` as `Except.error`),
skips integrations without a truthy manifest or config-flow flag, and
appends the domain to `domains[integration.integration_type]` — indexing a
two-key dict, so any other type raises `KeyError`.  The
`validate_integration` call of the source only records notices on the
integration object; it does not affect the returned data and is modelled
separately by `validate_integration`. -/
def generateDomainsGo (integrations : List (String × Integration)) :
    List String → V1 → Except String V1
  | [], domains => Except.ok domains
  | domain :: rest, domains =>
    match integrations.lookup domain with
    | none => Except.error ("KeyError: " ++ domain)
    | some integration =>
      if !integration.qualifies then
        generateDomainsGo integrations rest domains
      else if integration.integration_type == "integration" then
        generateDomainsGo integrations rest
          { domains with integration := domains.integration ++ [domain] }
      else if integration.integration_type == "helper" then
        generateDomainsGo integrations rest
          { domains with helper := domains.helper ++ [domain] }
      else
        Except.error ("KeyError: " ++ integration.integration_type)

/-- Python `sorted` over the keys of the integrations dict: a stable sort
by code-point order (insertion sort agrees with it). -/
def sortedKeys (integrations : List (String × Integration)) : List String :=
  List.insertionSort pyStrLe (integrations.map Prod.fst)

/-- `generate_and_validate`, data part: the partition of qualifying domains
into the `FLOWS` mapping. -/
def generate_and_validate (integrations : List (String × Integration)) :
    Except String V1 :=
  generateDomainsGo integrations (sortedKeys integrations) { integration := [], helper := [] }

/-- Modelled from the spec: the v1 artifact text — the fixed `BASE`
disclaimer header around the serialized `FLOWS` mapping, as produced by the
external serializer and the `black` formatter (both outside `src/`): a
deterministic rendering of the two lists. -/
def renderV1 (v : V1) : String :=
  "\"\"\"Automatically generated by hassfest.\n\nTo update, run python3 -m script.hassfest\n\"\"\"\n\nFLOWS = \x7b\n    \"integration\": ["
  ++ String.intercalate ", " (v.integration.map (fun d => "\"" ++ d ++ "\""))
  ++ "],\n    \"helper\": ["
  ++ String.intercalate ", " (v.helper.map (fun d => "\"" ++ d ++ "\""))
  ++ "],\n\x7d\n"

/-- Nested metadata of one brand-member integration in the v2 output:
`name` plus the `translated_name` key (modelled as a flag for its
presence). -/
structure SubMeta where
  name : String
  translated_name : Bool
deriving DecidableEq, Repr

/-- Metadata of one top-level v2 entry.  Optional fields model the
presence of the corresponding JSON keys. -/
structure V2Meta where
  name : String
  translated_name : Bool
  integrations : Option (List (String × SubMeta))
  iot_standards : Option (List String)
deriving DecidableEq, Repr

/-- The v2 output object: the two top-level buckets `"integration"` and
`"helper"`, each a mapping from domain to metadata. -/
structure V2 where
  integration : List (String × V2Meta)
  helper : List (String × V2Meta)
deriving DecidableEq, Repr

/-- Python dict assignment `m[k] = v` on an association list: overwrite in
place when the key is present, else append. -/
def assocSet (m : List (String × α)) (k : String) (v : α) : List (String × α) :=
  if (m.lookup k).isSome then
    m.map (fun p => if p.1 == k then (k, v) else p)
  else
    m ++ [(k, v)]

/-- One iteration of the `_populate_brand_integrations` loop: members
missing from the integrations dict are skipped, present ones get a
`name` / `translated_name` record assigned under their domain. -/
def populateStep (integrations : List (String × Integration))
    (acc : List (String × SubMeta)) (domain : String) : List (String × SubMeta) :=
  match integrations.lookup domain with
  | none => acc
  | some integration =>
    assocSet acc domain
      { name := integration.name,
        translated_name := integration.translated_name }

/-- `_populate_brand_integrations`: the `"integrations"` mapping built for
a brand (the `setdefault` starts from the empty mapping). -/
def _populate_brand_integrations (integrations : List (String × Integration))
    (sub_integrations : List String) : List (String × SubMeta) :=
  sub_integrations.foldl (populateStep integrations) []

/-- The metadata `_generate_v2` builds for a primary domain that matches a
brand: the brand's name, its member-integration mapping when the member
list is truthy, and its iot-standards when truthy. -/
def brandMetadata (integrations : List (String × Integration)) (brand : Brand) :
    V2Meta :=
  { name := brand.name,
    translated_name := false,
    integrations :=
      if truthyListOpt brand.integrations then
        some (_populate_brand_integrations integrations (brand.integrations.getD []))
      else
        none,
    iot_standards :=
      if truthyListOpt brand.iot_standards then brand.iot_standards else none }

/-- The metadata `_generate_v2` builds for a plain integration (no matching
brand): name plus the `translated_name` key when truthy. -/
def integrationMetadata (integration : Integration) : V2Meta :=
  { name := integration.name,
    translated_name := integration.translated_name,
    integrations := none,
    iot_standards := none }

/-- `brand_integration_domains`: the set of domains referenced from at
least one brand's `integrations` list (as a list with possible
repetitions; only membership is ever used). -/
def brandIntegrationDomains (brands : List (String × Brand)) : List String :=
  brands.foldr (fun p acc => p.2.integrations.getD [] ++ acc) []

/-- `primary_domains`: domains of qualifying integrations not referenced
from any brand, unioned with all brand identifiers.  The Python value is a
set; the embedding keeps a list and deduplicates before sorting. -/
def primaryDomains (brands : List (String × Brand))
    (integrations : List (String × Integration)) : List String :=
  (integrations.filter
      (fun p => p.2.qualifies && !(brandIntegrationDomains brands).contains p.1)).map Prod.fst
  ++ brands.map Prod.fst

/-- `sorted(primary_domains)`: the iteration order of the v2 generator. -/
def sortedPrimaryDomains (brands : List (String × Brand))
    (integrations : List (String × Integration)) : List String :=
  List.insertionSort pyStrLe (primaryDomains brands integrations).dedup

/-- The loop body of `_generate_v2` over the sorted primary domains: a
matching brand is emitted under `"integration"`; otherwise the integration
is looked up (`KeyError` as `Except.error`) and emitted under
`result[integration.integration_type]` — a two-key dict, so any other type
raises `KeyError`.  The domains iterated are distinct (they come from a
set), so the dict assignments are plain appends. -/
def generateV2Go (brands : List (String × Brand))
    (integrations : List (String × Integration)) :
    List String → V2 → Except String V2
  | [], result => Except.ok result
  | domain :: rest, result =>
    match brands.lookup domain with
    | some brand =>
      generateV2Go brands integrations rest
        { result with
            integration :=
              result.integration ++ [(domain, brandMetadata integrations brand)] }
    | none =>
      match integrations.lookup domain with
      | none => Except.error ("KeyError: " ++ domain)
      | some integration =>
        if integration.integration_type == "integration" then
          generateV2Go brands integrations rest
            { result with
                integration :=
                  result.integration ++ [(domain, integrationMetadata integration)] }
        else if integration.integration_type == "helper" then
          generateV2Go brands integrations rest
            { result with
                helper := result.helper ++ [(domain, integrationMetadata integration)] }
        else
          Except.error ("KeyError: " ++ integration.integration_type)

/-- `_generate_v2`, data part: the v2 output object (the source returns its
`json.dumps`; the rendering is `renderV2`). -/
def _generate_v2 (brands : List (String × Brand))
    (integrations : List (String × Integration)) : Except String V2 :=
  generateV2Go brands integrations (sortedPrimaryDomains brands integrations)
    { integration := [], helper := [] }

/-- JSON string literal.  Modelled from the spec: the serialized names are
plain identifiers and display names, assumed to need no JSON escaping. -/
def jsonStr (s : String) : String := "\"" ++ s ++ "\""

/-- A JSON object over already-rendered `"key": value` entries, with
2-space indentation as `json.dumps(..., indent=2)` produces; `ind` is the
indentation of the line on which the object starts. -/
def jsonObj (ind : String) (entries : List String) : String :=
  match entries with
  | [] => "\x7b\x7d"
  | _ =>
    "\x7b\n" ++ String.intercalate ",\n" (entries.map (fun e => ind ++ "  " ++ e))
    ++ "\n" ++ ind ++ "\x7d"

/-- Rendering of one brand-member integration's metadata. -/
def jsonSubMeta (ind : String) (m : SubMeta) : String :=
  jsonObj ind
    (["\"name\": " ++ jsonStr m.name]
      ++ (if m.translated_name then ["\"translated_name\": true"] else []))

/-- Rendering of one top-level v2 metadata object, fields in the source's
insertion order (`name`, `translated_name`, `integrations`,
`iot_standards`; no entry ever has both `translated_name` and a nested
part). -/
def jsonV2Meta (ind : String) (m : V2Meta) : String :=
  jsonObj ind
    (["\"name\": " ++ jsonStr m.name]
      ++ (if m.translated_name then ["\"translated_name\": true"] else [])
      ++ (match m.integrations with
          | none => []
          | some subs =>
            ["\"integrations\": "
              ++ jsonObj (ind ++ "  ")
                  (subs.map (fun p => jsonStr p.1 ++ ": " ++ jsonSubMeta (ind ++ "    ") p.2))])
      ++ (match m.iot_standards with
          | none => []
          | some standards =>
            ["\"iot_standards\": "
              ++ (match standards with
                  | [] => "[]"
                  | _ =>
                    "[\n"
                    ++ String.intercalate ",\n"
                        (standards.map (fun s => ind ++ "    " ++ jsonStr s))
                    ++ "\n" ++ ind ++ "  ]")]))

/-- Modelled from the spec: `json.dumps(result, indent=2)` (the JSON
serializer is outside `src/`): a deterministic rendering of the v2
object. -/
def renderV2 (v : V2) : String :=
  jsonObj ""
    ["\"integration\": "
      ++ jsonObj "  "
          (v.integration.map (fun p => jsonStr p.1 ++ ": " ++ jsonV2Meta "    " p.2)),
     "\"helper\": "
      ++ jsonObj "  "
          (v.helper.map (fun p => jsonStr p.1 ++ ": " ++ jsonV2Meta "    " p.2))]

/-- Modelled from the spec: the run context `Config` of
`script/hassfest/model.py` (not under `src/`), restricted to what
`validate` and `generate` read and write, with the filesystem inlined:
`disk_config_flows_py` and `disk_config_flows_v2_json` are the on-disk
contents of `homeassistant/generated/config_flows.py` and
`homeassistant/generated/config_flows_v2.json`, and
`specific_integrations` is the truthiness of the restricted-run field. -/
structure Config where
  specific_integrations : Bool
  cache_config_flow : Option String
  cache_config_flow_v2 : Option String
  errors : List ConfigError
  disk_config_flows_py : String
  disk_config_flows_v2_json : String
deriving DecidableEq, Repr

/-- The fixable drift error for `config_flows.py`. -/
def configFlowStaleError : ConfigError :=
  { category := "config_flow",
    message := "File config_flows.py is not up to date. Run python3 -m script.hassfest",
    fixable := true }

/-- The fixable drift error for `config_flows_v2.json`. -/
def configFlowV2StaleError : ConfigError :=
  { category := "config_flow",
    message := "File config_flows_v2.json is not up to date. Run python3 -m script.hassfest",
    fixable := true }

/-- `validate`: caches the computed artifacts and, on full runs, compares
them against the on-disk artifacts.  The filesystem is part of the input:
the `disk_` fields of `config` hold the two artifact files' contents, and
`brands` is the result of `Brand.load_dir` (the brand definition files).
The `validate_brands` call delegates to the external brand validator (out
of scope) and only records notices; it is not modelled.  On a `KeyError`
the partially mutated `Config` is discarded by the embedding
(`Except.error`); no claim observes state after an exception. -/
def validate (integrations : List (String × Integration))
    (brands : List (String × Brand)) (config : Config) : Except String Config :=
  match generate_and_validate integrations with
  | Except.error e => Except.error e
  | Except.ok v1 =>
    let content := renderV1 v1
    let config1 := { config with cache_config_flow := some content }
    if config1.specific_integrations then
      Except.ok config1
    else
      let config2 :=
        if config1.disk_config_flows_py ≠ content then
          { config1 with errors := config1.errors ++ [configFlowStaleError] }
        else
          config1
      match _generate_v2 brands integrations with
      | Except.error e => Except.error e
      | Except.ok v2 =>
        let content2 := renderV2 v2
        let config3 := { config2 with cache_config_flow_v2 := some content2 }
        if config3.disk_config_flows_v2_json ≠ content2 ++ "\n" then
          Except.ok { config3 with errors := config3.errors ++ [configFlowV2StaleError] }
        else
          Except.ok config3

/-- `generate`: the pair of file contents written to
`homeassistant/generated/config_flows.py` and
`homeassistant/generated/config_flows_v2.json`: the cached strings, the
JSON one with a trailing newline; missing cache keys raise `KeyError`. -/
def generate (config : Config) : Except String (String × String) :=
  match config.cache_config_flow, config.cache_config_flow_v2 with
  | some content, some content_v2 => Except.ok (content, content_v2 ++ "\n")
  | _, _ => Except.error "KeyError"

/-- Characterization helper: whether the v1 loop files domain `d` under
bucket `t`. -/
def picksType (integrations : List (String × Integration)) (t : String)
    (d : String) : Bool :=
  match integrations.lookup d with
  | some i => i.qualifies && i.integration_type == t
  | none => false

/-- Characterization helper: the entry the v2 loop appends to the
`"integration"` bucket for domain `d`, if any. -/
def v2IntegrationEntry (brands : List (String × Brand))
    (integrations : List (String × Integration)) (d : String) :
    Option (String × V2Meta) :=
  match brands.lookup d with
  | some brand => some (d, brandMetadata integrations brand)
  | none =>
    match integrations.lookup d with
    | some i =>
      if i.integration_type == "integration" then some (d, integrationMetadata i)
      else none
    | none => none

/-- Characterization helper: the entry the v2 loop appends to the
`"helper"` bucket for domain `d`, if any. -/
def v2HelperEntry (brands : List (String × Brand))
    (integrations : List (String × Integration)) (d : String) :
    Option (String × V2Meta) :=
  match brands.lookup d with
  | some _ => none
  | none =>
    match integrations.lookup d with
    | some i =>
      if i.integration_type == "helper" then some (d, integrationMetadata i)
      else none
    | none => none

/-- Characterization helper: whether the v2 loop body runs without a
`KeyError` on domain `d`. -/
def v2EntryOk (brands : List (String × Brand))
    (integrations : List (String × Integration)) (d : String) : Bool :=
  match brands.lookup d with
  | some _ => true
  | none =>
    match integrations.lookup d with
    | some i => i.integration_type == "integration" || i.integration_type == "helper"
    | none => false

/-- Characterization helper: whether the v1 loop body runs without a
`KeyError` on domain `d`. -/
def v1EntryOk (integrations : List (String × Integration)) (d : String) : Bool :=
  match integrations.lookup d with
  | none => false
  | some i =>
    !i.qualifies || i.integration_type == "integration" || i.integration_type == "helper"

instance : IsTotal String pyStrLe where
  total a b := by
    suffices h : ∀ as bs : List Char, lexLe as bs = true ∨ lexLe bs as = true from
      h a.data b.data
    intro as
    induction as with
    | nil => intro bs; exact Or.inl rfl
    | cons x xs ih =>
      intro bs
      cases bs with
      | nil => exact Or.inr rfl
      | cons y ys =>
        rcases Nat.lt_trichotomy x.toNat y.toNat with h | h | h
        · left; simp [lexLe, h]
        · have h1 : ¬x.toNat < y.toNat := by omega
          have h2 : ¬y.toNat < x.toNat := by omega
          rcases ih ys with hh | hh
          · left; simp [lexLe, h1, h2, hh]
          · right; simp [lexLe, h1, h2, hh]
        · right; simp [lexLe, h, show ¬x.toNat < y.toNat by omega]

instance : IsTrans String pyStrLe where
  trans a b c hab hbc := by
    suffices h : ∀ as bs cs : List Char,
        lexLe as bs = true → lexLe bs cs = true → lexLe as cs = true from
      h a.data b.data c.data hab hbc
    intro as
    induction as with
    | nil => intro bs cs _ _; rfl
    | cons x xs ih =>
      intro bs cs hab hbc
      cases bs with
      | nil => simp [lexLe] at hab
      | cons y ys =>
        cases cs with
        | nil => simp [lexLe] at hbc
        | cons z zs =>
          rcases Nat.lt_trichotomy x.toNat y.toNat with h1 | h1 | h1 <;>
            rcases Nat.lt_trichotomy y.toNat z.toNat with h2 | h2 | h2
          · simp [lexLe, show x.toNat < z.toNat by omega]
          · simp [lexLe, show x.toNat < z.toNat by omega]
          · simp [lexLe, show ¬y.toNat < z.toNat by omega, h2] at hbc
          · simp [lexLe, show x.toNat < z.toNat by omega]
          · simp only [lexLe, show ¬x.toNat < y.toNat by omega,
              show ¬y.toNat < x.toNat by omega, if_false, if_neg, ite_false] at hab
            simp only [lexLe, show ¬y.toNat < z.toNat by omega,
              show ¬z.toNat < y.toNat by omega, ite_false, if_neg] at hbc
            simp only [lexLe, show ¬x.toNat < z.toNat by omega,
              show ¬z.toNat < x.toNat by omega, ite_false, if_neg]
            exact ih ys zs hab hbc
          · simp [lexLe, show ¬y.toNat < z.toNat by omega, h2] at hbc
          · simp [lexLe, show ¬x.toNat < y.toNat by omega, h1] at hab
          · simp [lexLe, show ¬x.toNat < y.toNat by omega, h1] at hab
          · simp [lexLe, show ¬x.toNat < y.toNat by omega, h1] at hab

/-- Fixture: a discoverable config-flow text with no identity mechanism. -/
def demoDiscoveryText : String :=
  "class DemoConfigFlow:\n    async def async_step_dhcp(self, discovery_info):\n        return None\n"

/-- Fixture: an integration whose config-flow text is `demoDiscoveryText`. -/
def demoDiscoveryIntegration : Integration :=
  { domain := "demo",
    manifestTruthy := true,
    config_flow := true,
    integration_type := "integration",
    name := "Demo",
    translated_name := false,
    configFlowFile := some demoDiscoveryText }

/-- Fixture: a config-flow-declaring integration with no `config_flow.py`. -/
def missingFileIntegration : Integration :=
  { domain := "nofile",
    manifestTruthy := true,
    config_flow := true,
    integration_type := "integration",
    name := "No File",
    translated_name := false,
    configFlowFile := none }

/-- Fixture: a qualifying integration of type `integration`. -/
def exIntegrationAlpha : Integration :=
  { domain := "alpha",
    manifestTruthy := true,
    config_flow := true,
    integration_type := "integration",
    name := "Alpha",
    translated_name := false,
    configFlowFile := none }

/-- Fixture: a qualifying integration of type `helper`. -/
def exIntegrationBeta : Integration :=
  { domain := "beta",
    manifestTruthy := true,
    config_flow := true,
    integration_type := "helper",
    name := "Beta",
    translated_name := true,
    configFlowFile := none }

/-- Fixture: a non-qualifying integration (no manifest). -/
def exIntegrationGamma : Integration :=
  { domain := "gamma",
    manifestTruthy := false,
    config_flow := false,
    integration_type := "integration",
    name := "Gamma",
    translated_name := false,
    configFlowFile := none }

/-- Fixture: a small integrations dict. -/
def exIntegrations : List (String × Integration) :=
  [("beta", exIntegrationBeta), ("alpha", exIntegrationAlpha), ("gamma", exIntegrationGamma)]

/-- Fixture: a brand whose member list references the domain `bee`,
which is itself also a brand identifier. -/
def cexBrands : List (String × Brand) :=
  [("acme", { name := "Acme", integrations := some ["bee"], iot_standards := none }),
   ("bee", { name := "Bee", integrations := none, iot_standards := none })]

/-- Fixture: a qualifying integration with an integration type outside
the two bucket keys. -/
def hubIntegration : Integration :=
  { domain := "hubx",
    manifestTruthy := true,
    config_flow := true,
    integration_type := "hub",
    name := "Hub X",
    translated_name := false,
    configFlowFile := none }

/-- Fixture: an integrations dict containing only `hubIntegration`. -/
def hubIntegrations : List (String × Integration) := [("hubx", hubIntegration)]

/-- Fixture: a brand claiming the badly typed `hubx` as a member. -/
def hubBrands : List (String × Brand) :=
  [("owner", { name := "Owner", integrations := some ["hubx"], iot_standards := none })]

/-- Fixture: a run context with empty caches. -/
def emptyCacheConfig (specific : Bool) : Config :=
  { specific_integrations := specific,
    cache_config_flow := none,
    cache_config_flow_v2 := none,
    errors := [],
    disk_config_flows_py := "",
    disk_config_flows_v2_json := "" }

/-- Fixture: a run context with both artifact caches filled. -/
def cachedConfig : Config :=
  { specific_integrations := false,
    cache_config_flow := some "v1 artifact",
    cache_config_flow_v2 := some "v2 artifact",
    errors := [],
    disk_config_flows_py := "",
    disk_config_flows_v2_json := "" }

/-- Fixture: a brand and a same-named helper-type integration. -/
def shadowHelperIntegration : Integration :=
  { domain := "acme",
    manifestTruthy := true,
    config_flow := true,
    integration_type := "helper",
    name := "Acme Helper",
    translated_name := true,
    configFlowFile := none }

/-- Fixture: integrations dict for the brand-shadowing scenario. -/
def shadowIntegrations : List (String × Integration) := [("acme", shadowHelperIntegration)]

/-- Fixture: the brand shadowing the `acme` integration. -/
def shadowBrands : List (String × Brand) :=
  [("acme", { name := "Acme", integrations := none, iot_standards := none })]

/-- Fixture: a brand claiming the plain integration `beta`. -/
def acmeClaimBrand : Brand :=
  { name := "Acme", integrations := some ["beta"], iot_standards := none }

/-- Fixture: a brand dict containing only `acmeClaimBrand`. -/
def acmeClaimBrands : List (String × Brand) := [("acme", acmeClaimBrand)]

/-- Fixture: the v2 output of `acmeClaimBrands` over `exIntegrations`. -/
def c2WitnessRes : V2 :=
  { integration :=
      [("acme", brandMetadata exIntegrations acmeClaimBrand),
       ("alpha", integrationMetadata exIntegrationAlpha)],
    helper := [] }

theorem lookup_eq_none_iff_keys {β : Type} (l : List (String × β)) (k : String) :
    l.lookup k = none ↔ k ∉ l.map Prod.fst := by
  rw [← Option.not_isSome_iff_eq_none, List.lookup_isSome_iff]
  simp only [List.mem_map, beq_iff_eq]
  constructor
  · intro h hm
    obtain ⟨p, hp, hpk⟩ := hm
    exact h ⟨p, hp, hpk.symm⟩
  · intro h hm
    obtain ⟨p, hp, hpk⟩ := hm
    exact h ⟨p, hp, hpk.symm⟩

theorem mem_of_lookup_eq_some {β : Type} {l : List (String × β)} {k : String} {v : β}
    (h : l.lookup k = some v) : (k, v) ∈ l := by
  rw [List.lookup_eq_some_iff] at h
  obtain ⟨l₁, l₂, rfl, -⟩ := h
  simp

theorem lookup_eq_some_of_nodup {β : Type} {l : List (String × β)} {k : String} {v : β}
    (hnd : (l.map Prod.fst).Nodup) (h : (k, v) ∈ l) : l.lookup k = some v := by
  induction l with
  | nil => simp at h
  | cons p rest ih =>
    obtain ⟨k', v'⟩ := p
    simp only [List.map_cons, List.nodup_cons] at hnd
    rcases List.mem_cons.mp h with heq | hmem
    · cases heq
      exact List.lookup_cons_self
    · have hne : (k == k') = false := by
        refine beq_eq_false_iff_ne.mpr ?_
        rintro rfl
        exact hnd.1 (List.mem_map.mpr ⟨(k, v), hmem, rfl⟩)
      rw [List.lookup_cons, hne]
      exact ih hnd.2 hmem

theorem mem_keys_of_lookup_eq_some {β : Type} {l : List (String × β)} {k : String}
    {v : β} (h : l.lookup k = some v) : k ∈ l.map Prod.fst :=
  List.mem_map.mpr ⟨(k, v), mem_of_lookup_eq_some h, rfl⟩

theorem mem_sortedKeys {ints : List (String × Integration)} {d : String} :
    d ∈ sortedKeys ints ↔ d ∈ ints.map Prod.fst :=
  (List.perm_insertionSort pyStrLe _).mem_iff

theorem sorted_sortedKeys (ints : List (String × Integration)) :
    (sortedKeys ints).Sorted pyStrLe :=
  List.sorted_insertionSort pyStrLe _

theorem nodup_sortedKeys {ints : List (String × Integration)}
    (hnd : (ints.map Prod.fst).Nodup) : (sortedKeys ints).Nodup :=
  (List.perm_insertionSort pyStrLe _).nodup_iff.mpr hnd

theorem mem_sortedPrimaryDomains {brands : List (String × Brand)}
    {ints : List (String × Integration)} {d : String} :
    d ∈ sortedPrimaryDomains brands ints ↔ d ∈ primaryDomains brands ints := by
  rw [sortedPrimaryDomains, (List.perm_insertionSort pyStrLe _).mem_iff]
  exact List.mem_dedup

theorem nodup_sortedPrimaryDomains (brands : List (String × Brand))
    (ints : List (String × Integration)) : (sortedPrimaryDomains brands ints).Nodup :=
  (List.perm_insertionSort pyStrLe _).nodup_iff.mpr (List.nodup_dedup _)

theorem mem_brandIntegrationDomains {brands : List (String × Brand)} {d : String} :
    d ∈ brandIntegrationDomains brands ↔ ∃ p ∈ brands, d ∈ p.2.integrations.getD [] := by
  induction brands with
  | nil => simp [brandIntegrationDomains]
  | cons p rest ih =>
    simp only [brandIntegrationDomains, List.foldr_cons, List.mem_append] at ih ⊢
    rw [ih]
    constructor
    · rintro (h | ⟨q, hq, hd⟩)
      · exact ⟨p, List.mem_cons_self .., h⟩
      · exact ⟨q, List.mem_cons_of_mem _ hq, hd⟩
    · rintro ⟨q, hq, hd⟩
      rcases List.mem_cons.mp hq with rfl | hq
      · exact Or.inl hd
      · exact Or.inr ⟨q, hq, hd⟩

theorem generateDomainsGo_eq (ints : List (String × Integration)) :
    ∀ (ds : List String) (acc : V1),
      (∀ d ∈ ds, v1EntryOk ints d = true) →
      generateDomainsGo ints ds acc =
        Except.ok
          { integration := acc.integration ++ ds.filter (picksType ints "integration"),
            helper := acc.helper ++ ds.filter (picksType ints "helper") } := by
  intro ds
  induction ds with
  | nil =>
    intro acc h
    simp [generateDomainsGo]
  | cons d rest ih =>
    intro acc h
    have hd := h d (List.mem_cons_self ..)
    have hrest : ∀ x ∈ rest, v1EntryOk ints x = true :=
      fun x hx => h x (List.mem_cons_of_mem _ hx)
    rw [v1EntryOk] at hd
    cases hlook : ints.lookup d with
    | none => rw [hlook] at hd; cases hd
    | some i =>
      rw [hlook] at hd
      have hd2 : (!i.qualifies || i.integration_type == "integration"
          || i.integration_type == "helper") = true := hd
      by_cases hq : i.qualifies = true
      · by_cases ht : i.integration_type = "integration"
        · have hbi : (i.integration_type == "integration") = true := by simp [ht]
          have hbh : (i.integration_type == "helper") = false := by simp [ht]
          rw [List.filter_cons_of_pos (by simp [picksType, hlook, hq, hbi]),
            List.filter_cons_of_neg (by simp [picksType, hlook, hbh])]
          simp only [generateDomainsGo, hlook, hq, Bool.not_true, Bool.false_eq_true,
            if_false, hbi, if_true]
          rw [ih _ hrest]
          simp
        · have hbi : (i.integration_type == "integration") = false := by simp [ht]
          have hth : i.integration_type = "helper" := by
            rw [hq, hbi] at hd2
            simpa using hd2
          have hbh : (i.integration_type == "helper") = true := by simp [hth]
          rw [List.filter_cons_of_neg (by simp [picksType, hlook, hbi]),
            List.filter_cons_of_pos (by simp [picksType, hlook, hq, hbh])]
          simp only [generateDomainsGo, hlook, hq, Bool.not_true, Bool.false_eq_true,
            if_false, hbi, hbh, if_true]
          rw [ih _ hrest]
          simp
      · have hq' : i.qualifies = false := by simpa using hq
        rw [List.filter_cons_of_neg (by simp [picksType, hlook, hq']),
          List.filter_cons_of_neg (by simp [picksType, hlook, hq'])]
        simp only [generateDomainsGo, hlook, hq', Bool.not_false, if_true]
        exact ih _ hrest

theorem generateDomainsGo_isOk_eq_false (ints : List (String × Integration)) :
    ∀ (ds : List String) (acc : V1), (∃ d ∈ ds, v1EntryOk ints d = false) →
      (generateDomainsGo ints ds acc).isOk = false := by
  intro ds
  induction ds with
  | nil =>
    rintro acc ⟨x, hx, -⟩
    simp at hx
  | cons d rest ih =>
    rintro acc ⟨x, hx, hxbad⟩
    cases hlook : ints.lookup d with
    | none => simp [generateDomainsGo, hlook, Except.isOk, Except.toBool]
    | some i =>
      rcases List.mem_cons.mp hx with rfl | hxr
      · rw [v1EntryOk, hlook] at hxbad
        obtain ⟨⟨hq, hbi⟩, hbh⟩ :=
          Bool.or_eq_false_iff.mp (Bool.or_eq_false_iff.mp hxbad).left,
            (Bool.or_eq_false_iff.mp hxbad).right
        have hq' : i.qualifies = true := by simpa using hq
        simp [generateDomainsGo, hlook, hq', hbi, hbh, Except.isOk, Except.toBool]
      · have hrec : ∀ acc' : V1, (generateDomainsGo ints rest acc').isOk = false :=
          fun acc' => ih acc' ⟨x, hxr, hxbad⟩
        by_cases hq : i.qualifies = true
        · by_cases hbi : (i.integration_type == "integration") = true
          · simp [generateDomainsGo, hlook, hq, hbi, hrec]
          · by_cases hbh : (i.integration_type == "helper") = true
            · simp [generateDomainsGo, hlook, hq, hbi, hbh, hrec]
            · simp [generateDomainsGo, hlook, hq, hbi, hbh, Except.isOk, Except.toBool]
        · have hq' : i.qualifies = false := by simpa using hq
          simp [generateDomainsGo, hlook, hq', hrec]

theorem v2IntegrationEntry_key {brands : List (String × Brand)}
    {ints : List (String × Integration)} {d : String} {p : String × V2Meta}
    (h : v2IntegrationEntry brands ints d = some p) : p.1 = d := by
  unfold v2IntegrationEntry at h
  split at h
  · cases h; rfl
  · split at h
    · split at h
      · cases h; rfl
      · cases h
    · cases h

theorem v2HelperEntry_key {brands : List (String × Brand)}
    {ints : List (String × Integration)} {d : String} {p : String × V2Meta}
    (h : v2HelperEntry brands ints d = some p) : p.1 = d := by
  unfold v2HelperEntry at h
  split at h
  · cases h
  · split at h
    · split at h
      · cases h; rfl
      · cases h
    · cases h

theorem mem_keys_filterMap {α : Type} {f : String → Option (String × α)}
    (hkey : ∀ x p, f x = some p → p.1 = x) (ds : List String) (d : String) :
    d ∈ (ds.filterMap f).map Prod.fst ↔ d ∈ ds ∧ (f d).isSome := by
  constructor
  · intro h
    obtain ⟨p, hp, rfl⟩ := List.mem_map.mp h
    obtain ⟨x, hx, hfx⟩ := List.mem_filterMap.mp hp
    have hk := hkey x p hfx
    rw [hk]
    exact ⟨hx, by rw [hfx]; rfl⟩
  · rintro ⟨hmem, hsome⟩
    obtain ⟨p, hp⟩ := Option.isSome_iff_exists.mp hsome
    exact List.mem_map.mpr ⟨p, List.mem_filterMap.mpr ⟨d, hmem, hp⟩, hkey d p hp⟩

theorem nodup_keys_filterMap {α : Type} {f : String → Option (String × α)}
    (hkey : ∀ x p, f x = some p → p.1 = x) :
    ∀ ds : List String, ds.Nodup → ((ds.filterMap f).map Prod.fst).Nodup := by
  intro ds
  induction ds with
  | nil => intro; simp
  | cons x rest ih =>
    intro hnd
    rw [List.nodup_cons] at hnd
    cases hfx : f x with
    | none =>
      rw [List.filterMap_cons_none hfx]
      exact ih hnd.2
    | some p =>
      rw [List.filterMap_cons_some hfx, List.map_cons, List.nodup_cons]
      refine ⟨?_, ih hnd.2⟩
      rw [hkey x p hfx]
      intro hmem
      exact hnd.1 ((mem_keys_filterMap hkey rest x).mp hmem).1

theorem mem_keys_assocSet {α : Type} {m : List (String × α)} {k d : String} {v : α}
    (h : d ∈ (assocSet m k v).map Prod.fst) : d ∈ m.map Prod.fst ∨ d = k := by
  rw [assocSet] at h
  split at h
  · obtain ⟨p, hp, hpd⟩ := List.mem_map.mp h
    obtain ⟨q, hq, rfl⟩ := List.mem_map.mp hp
    by_cases hqk : (q.1 == k) = true
    · rw [if_pos hqk] at hpd
      exact Or.inr hpd.symm
    · rw [if_neg (by simpa using hqk)] at hpd
      exact Or.inl (List.mem_map.mpr ⟨q, hq, hpd⟩)
  · rw [List.map_append, List.mem_append] at h
    rcases h with h | h
    · exact Or.inl h
    · simp at h
      exact Or.inr h

theorem keys_populate_subset (ints : List (String × Integration)) :
    ∀ (subs : List String) (acc : List (String × SubMeta)) (d : String),
      d ∈ (subs.foldl (populateStep ints) acc).map Prod.fst →
      d ∈ acc.map Prod.fst ∨ d ∈ subs := by
  intro subs
  induction subs with
  | nil =>
    intro acc d h
    exact Or.inl h
  | cons x rest ih =>
    intro acc d h
    rw [List.foldl_cons] at h
    rcases ih _ d h with hacc | hrest
    · rw [populateStep] at hacc
      cases hlook : ints.lookup x with
      | none =>
        rw [hlook] at hacc
        exact Or.inl hacc
      | some i =>
        rw [hlook] at hacc
        rcases mem_keys_assocSet hacc with hm | rfl
        · exact Or.inl hm
        · exact Or.inr (List.mem_cons_self ..)
    · exact Or.inr (List.mem_cons_of_mem _ hrest)

theorem keys_populate_mem {ints : List (String × Integration)} {subs : List String}
    {d : String} (h : d ∈ (_populate_brand_integrations ints subs).map Prod.fst) :
    d ∈ subs := by
  rcases keys_populate_subset ints subs [] d h with h0 | h
  · simp at h0
  · exact h

theorem generateV2Go_eq (brands : List (String × Brand))
    (ints : List (String × Integration)) :
    ∀ (ds : List String) (acc : V2),
      (∀ d ∈ ds, v2EntryOk brands ints d = true) →
      generateV2Go brands ints ds acc =
        Except.ok
          { integration := acc.integration ++ ds.filterMap (v2IntegrationEntry brands ints),
            helper := acc.helper ++ ds.filterMap (v2HelperEntry brands ints) } := by
  intro ds
  induction ds with
  | nil =>
    intro acc h
    simp [generateV2Go]
  | cons d rest ih =>
    intro acc h
    have hd := h d (List.mem_cons_self ..)
    have hrest : ∀ x ∈ rest, v2EntryOk brands ints x = true :=
      fun x hx => h x (List.mem_cons_of_mem _ hx)
    cases hb : brands.lookup d with
    | some brand =>
      have hie : v2IntegrationEntry brands ints d = some (d, brandMetadata ints brand) := by
        simp [v2IntegrationEntry, hb]
      have hhe : v2HelperEntry brands ints d = none := by
        simp [v2HelperEntry, hb]
      have hstep : generateV2Go brands ints (d :: rest) acc =
          generateV2Go brands ints rest
            { acc with
                integration := acc.integration ++ [(d, brandMetadata ints brand)] } := by
        simp [generateV2Go, hb]
      rw [List.filterMap_cons_some hie, List.filterMap_cons_none hhe, hstep, ih _ hrest]
      simp
    | none =>
      cases hlook : ints.lookup d with
      | none => simp [v2EntryOk, hb, hlook] at hd
      | some i =>
        have hd2 : (i.integration_type == "integration"
            || i.integration_type == "helper") = true := by
          simpa [v2EntryOk, hb, hlook] using hd
        by_cases hbi : (i.integration_type == "integration") = true
        · have ht : i.integration_type = "integration" := by simpa using hbi
          have hbh : (i.integration_type == "helper") = false := by simp [ht]
          have hie : v2IntegrationEntry brands ints d = some (d, integrationMetadata i) := by
            simp [v2IntegrationEntry, hb, hlook, hbi]
          have hhe : v2HelperEntry brands ints d = none := by
            simp [v2HelperEntry, hb, hlook, hbh]
          have hstep : generateV2Go brands ints (d :: rest) acc =
              generateV2Go brands ints rest
                { acc with
                    integration := acc.integration ++ [(d, integrationMetadata i)] } := by
            simp [generateV2Go, hb, hlook, hbi]
          rw [List.filterMap_cons_some hie, List.filterMap_cons_none hhe, hstep, ih _ hrest]
          simp
        · have hbh : (i.integration_type == "helper") = true := by
            rw [Bool.or_eq_true] at hd2
            rcases hd2 with h' | h'
            · exact absurd h' hbi
            · exact h'
          have hbi' : (i.integration_type == "integration") = false := by
            simpa using hbi
          have hie : v2IntegrationEntry brands ints d = none := by
            simp [v2IntegrationEntry, hb, hlook, hbi']
          have hhe : v2HelperEntry brands ints d = some (d, integrationMetadata i) := by
            simp [v2HelperEntry, hb, hlook, hbh]
          have hstep : generateV2Go brands ints (d :: rest) acc =
              generateV2Go brands ints rest
                { acc with helper := acc.helper ++ [(d, integrationMetadata i)] } := by
            simp [generateV2Go, hb, hlook, hbi', hbh]
          rw [List.filterMap_cons_none hie, List.filterMap_cons_some hhe, hstep, ih _ hrest]
          simp

theorem generateV2Go_isOk_eq_false (brands : List (String × Brand))
    (ints : List (String × Integration)) :
    ∀ (ds : List String) (acc : V2), (∃ d ∈ ds, v2EntryOk brands ints d = false) →
      (generateV2Go brands ints ds acc).isOk = false := by
  intro ds
  induction ds with
  | nil =>
    rintro acc ⟨x, hx, -⟩
    simp at hx
  | cons d rest ih =>
    rintro acc ⟨x, hx, hxbad⟩
    rcases List.mem_cons.mp hx with rfl | hxr
    · cases hb : brands.lookup x with
      | some brand => simp [v2EntryOk, hb] at hxbad
      | none =>
        cases hlook : ints.lookup x with
        | none => simp [generateV2Go, hb, hlook, Except.isOk, Except.toBool]
        | some i =>
          have hd2 : (i.integration_type == "integration"
              || i.integration_type == "helper") = false := by
            simpa [v2EntryOk, hb, hlook] using hxbad
          obtain ⟨hbi, hbh⟩ := Bool.or_eq_false_iff.mp hd2
          simp [generateV2Go, hb, hlook, hbi, hbh, Except.isOk, Except.toBool]
    · have hrec : ∀ acc' : V2, (generateV2Go brands ints rest acc').isOk = false :=
        fun acc' => ih acc' ⟨x, hxr, hxbad⟩
      cases hb : brands.lookup d with
      | some brand => simp [generateV2Go, hb, hrec]
      | none =>
        cases hlook : ints.lookup d with
        | none => simp [generateV2Go, hb, hlook, Except.isOk, Except.toBool]
        | some i =>
          by_cases hbi : (i.integration_type == "integration") = true
          · simp [generateV2Go, hb, hlook, hbi, hrec]
          · by_cases hbh : (i.integration_type == "helper") = true
            · simp [generateV2Go, hb, hlook, hbi, hbh, hrec]
            · simp [generateV2Go, hb, hlook, hbi, hbh, Except.isOk, Except.toBool]

theorem v1_ok_characterization {ints : List (String × Integration)} {res : V1}
    (hres : generate_and_validate ints = Except.ok res) :
    res.integration = (sortedKeys ints).filter (picksType ints "integration") ∧
    res.helper = (sortedKeys ints).filter (picksType ints "helper") := by
  have hok : ∀ d ∈ sortedKeys ints, v1EntryOk ints d = true := by
    by_contra hcon
    push_neg at hcon
    obtain ⟨d, hd, hne⟩ := hcon
    have hbad : v1EntryOk ints d = false := by
      cases hval : v1EntryOk ints d
      · rfl
      · exact absurd hval hne
    have hko := generateDomainsGo_isOk_eq_false ints _
      { integration := [], helper := [] } ⟨d, hd, hbad⟩
    rw [generate_and_validate] at hres
    rw [hres] at hko
    simp [Except.isOk, Except.toBool] at hko
  have h := generateDomainsGo_eq ints (sortedKeys ints)
    { integration := [], helper := [] } hok
  rw [generate_and_validate, h] at hres
  simp only [Except.ok.injEq] at hres
  rw [← hres]
  simp

theorem v2_ok_characterization {brands : List (String × Brand)}
    {ints : List (String × Integration)} {res : V2}
    (hres : _generate_v2 brands ints = Except.ok res) :
    res.integration =
      (sortedPrimaryDomains brands ints).filterMap (v2IntegrationEntry brands ints) ∧
    res.helper =
      (sortedPrimaryDomains brands ints).filterMap (v2HelperEntry brands ints) := by
  have hok : ∀ d ∈ sortedPrimaryDomains brands ints, v2EntryOk brands ints d = true := by
    by_contra hcon
    push_neg at hcon
    obtain ⟨d, hd, hne⟩ := hcon
    have hbad : v2EntryOk brands ints d = false := by
      cases hval : v2EntryOk brands ints d
      · rfl
      · exact absurd hval hne
    have hko := generateV2Go_isOk_eq_false brands ints _
      { integration := [], helper := [] } ⟨d, hd, hbad⟩
    rw [_generate_v2] at hres
    rw [hres] at hko
    simp [Except.isOk, Except.toBool] at hko
  have h := generateV2Go_eq brands ints (sortedPrimaryDomains brands ints)
    { integration := [], helper := [] } hok
  rw [_generate_v2, h] at hres
  simp only [Except.ok.injEq] at hres
  rw [← hres]
  simp

theorem validate_scoped_eq {ints : List (String × Integration)}
    {brands : List (String × Brand)} {config : Config} {v1 : V1}
    (h1 : generate_and_validate ints = Except.ok v1)
    (hs : config.specific_integrations = true) :
    validate ints brands config =
      Except.ok { config with cache_config_flow := some (renderV1 v1) } := by
  simp [validate, h1, hs]

theorem validate_unscoped_eq {ints : List (String × Integration)}
    {brands : List (String × Brand)} {config : Config} {v1 : V1} {v2 : V2}
    (h1 : generate_and_validate ints = Except.ok v1)
    (h2 : _generate_v2 brands ints = Except.ok v2)
    (hs : config.specific_integrations = false) :
    validate ints brands config =
      Except.ok
        { config with
            cache_config_flow := some (renderV1 v1),
            cache_config_flow_v2 := some (renderV2 v2),
            errors :=
              (config.errors
                ++ (if config.disk_config_flows_py ≠ renderV1 v1 then
                      [configFlowStaleError]
                    else []))
                ++ (if config.disk_config_flows_v2_json ≠ renderV2 v2 ++ "\n" then
                      [configFlowV2StaleError]
                    else []) } := by
  simp only [validate, h1, h2, hs]
  split_ifs with hpy hjson hjson <;> simp_all

/-- C1: an integration whose config-flow text contains at least one of the
nine recognized discovery entry-point substrings, none of the four
recognized identity-mechanism substrings, and whose domain is not in the
exemption set, gets exactly one `config_flow` notice reading "Config flows
that are discoverable need to set a unique ID", recorded as a warning iff
the run is scoped to specific integrations and as an error otherwise. -/
theorem c1_discoverable_without_unique_id (specific : Bool) (i : Integration)
    (text : String) (hfile : i.configFlowFile = some text)
    (hdisc : hasDiscoveryStep text = true)
    (hident : hasUniqueIdMechanism text = false)
    (hdom : UNIQUE_ID_IGNORE.contains i.domain = false) :
    validate_integration specific i =
      [{ category := "config_flow",
         message := "Config flows that are discoverable need to set a unique ID",
         severity := if specific then Severity.warning else Severity.error }] := by
  have hdom' : i.domain ∉ UNIQUE_ID_IGNORE := by
    intro hm
    have hc : UNIQUE_ID_IGNORE.contains i.domain = true := List.elem_iff.mpr hm
    rw [hc] at hdom
    cases hdom
  simp [validate_integration, hfile, hdisc, hident, hdom, hdom']

/-- Witness for C1: a concrete DHCP-discoverable config flow without an
identity mechanism, in scoped and unscoped runs. -/
theorem c1_discoverable_without_unique_id_witness :
    validate_integration true demoDiscoveryIntegration =
      [{ category := "config_flow",
         message := "Config flows that are discoverable need to set a unique ID",
         severity := Severity.warning }] ∧
    validate_integration false demoDiscoveryIntegration =
      [{ category := "config_flow",
         message := "Config flows that are discoverable need to set a unique ID",
         severity := Severity.error }] :=
  ⟨c1_discoverable_without_unique_id true demoDiscoveryIntegration demoDiscoveryText
      rfl rfl rfl rfl,
    c1_discoverable_without_unique_id false demoDiscoveryIntegration demoDiscoveryText
      rfl rfl rfl rfl⟩

/-- C9: when `config_flow.py` does not exist, a manifest-declared config
flow gets exactly one `config_flow` error notice (an error regardless of
run scope, and no discovery check happens); without the manifest flag no
notice is recorded. -/
theorem c9_missing_config_flow_file (specific : Bool) (i : Integration)
    (hfile : i.configFlowFile = none) :
    validate_integration specific i =
      (if i.config_flow then
        [{ category := "config_flow",
           message := "Config flows need to be defined in the file config_flow.py",
           severity := Severity.error }]
      else []) := by
  simp [validate_integration, hfile]

/-- Witness for C9: a concrete integration with a missing file, with and
without the manifest flag. -/
theorem c9_missing_config_flow_file_witness :
    validate_integration true missingFileIntegration =
      [{ category := "config_flow",
         message := "Config flows need to be defined in the file config_flow.py",
         severity := Severity.error }] ∧
    validate_integration true exIntegrationGamma = [] :=
  ⟨c9_missing_config_flow_file true missingFileIntegration rfl,
    c9_missing_config_flow_file true exIntegrationGamma rfl⟩

/-- C6: the generators are deterministic: two runs over equal integration
sets, brand sets and file contents produce byte-identical rendered v1 and
v2 artifacts. -/
theorem c6_generators_deterministic (ints1 ints2 : List (String × Integration))
    (brands1 brands2 : List (String × Brand))
    (hi : ints1 = ints2) (hb : brands1 = brands2) :
    (generate_and_validate ints1).map renderV1 =
        (generate_and_validate ints2).map renderV1 ∧
    (_generate_v2 brands1 ints1).map renderV2 =
        (_generate_v2 brands2 ints2).map renderV2 := by
  subst hi
  subst hb
  exact ⟨rfl, rfl⟩

/-- Witness for C6 at a concrete integration and brand set. -/
theorem c6_generators_deterministic_witness :
    (generate_and_validate exIntegrations).map renderV1 =
        (generate_and_validate exIntegrations).map renderV1 ∧
    (_generate_v2 cexBrands exIntegrations).map renderV2 =
        (_generate_v2 cexBrands exIntegrations).map renderV2 :=
  c6_generators_deterministic exIntegrations exIntegrations cexBrands cexBrands rfl rfl

/-- C7: `generate` writes exactly the two cached strings — the cached
`config_flow` value verbatim and the cached `config_flow_v2` value with a
single trailing newline — touching nothing else (it reads only the
cache). -/
theorem c7_generate_writes_cached (config : Config) (c1 c2 : String)
    (h1 : config.cache_config_flow = some c1)
    (h2 : config.cache_config_flow_v2 = some c2) :
    generate config = Except.ok (c1, c2 ++ "\n") := by
  simp [generate, h1, h2]

/-- Witness for C7 at a concrete cached run context. -/
theorem c7_generate_writes_cached_witness :
    generate cachedConfig = Except.ok ("v1 artifact", "v2 artifact" ++ "\n") :=
  c7_generate_writes_cached cachedConfig "v1 artifact" "v2 artifact" rfl rfl

/-- C4: on an unscoped run `validate` compares the on-disk source artifact
byte-for-byte against the computed string and the on-disk JSON artifact
against the computed string plus a trailing newline, appending exactly one
fixable `config_flow` error naming each stale artifact and the
regeneration command, and no drift error when both match. -/
theorem c4_drift_detection (ints : List (String × Integration))
    (brands : List (String × Brand)) (config : Config) (v1 : V1) (v2 : V2)
    (h1 : generate_and_validate ints = Except.ok v1)
    (h2 : _generate_v2 brands ints = Except.ok v2)
    (hs : config.specific_integrations = false) :
    validate ints brands config =
      Except.ok
        { config with
            cache_config_flow := some (renderV1 v1),
            cache_config_flow_v2 := some (renderV2 v2),
            errors :=
              (config.errors
                ++ (if config.disk_config_flows_py ≠ renderV1 v1 then
                      [configFlowStaleError]
                    else []))
                ++ (if config.disk_config_flows_v2_json ≠ renderV2 v2 ++ "\n" then
                      [configFlowV2StaleError]
                    else []) } :=
  validate_unscoped_eq h1 h2 hs

/-- Witness for C4: an unscoped run over the empty integration set against
empty on-disk artifacts, where both artifacts differ and both drift errors
are recorded. -/
theorem c4_drift_detection_witness :
    validate [] [] (emptyCacheConfig false) =
      Except.ok
        { emptyCacheConfig false with
            cache_config_flow := some (renderV1 { integration := [], helper := [] }),
            cache_config_flow_v2 := some (renderV2 { integration := [], helper := [] }),
            errors :=
              (([] : List ConfigError)
                ++ (if (emptyCacheConfig false).disk_config_flows_py ≠
                      renderV1 { integration := [], helper := [] } then
                      [configFlowStaleError]
                    else []))
                ++ (if (emptyCacheConfig false).disk_config_flows_v2_json ≠
                      renderV2 { integration := [], helper := [] } ++ "\n" then
                      [configFlowV2StaleError]
                    else []) } :=
  c4_drift_detection [] [] (emptyCacheConfig false)
    { integration := [], helper := [] } { integration := [], helper := [] } rfl rfl rfl

/-- C5 counterexample: on a scoped run `validate` does not cache the v2
artifact — the `config_flow_v2` cache entry stays empty — refuting "for
every run validate caches the computed content of both artifacts". -/
theorem c5_counterexample :
    (emptyCacheConfig true).specific_integrations = true ∧
    (validate [] [] (emptyCacheConfig true)).map (fun c => c.cache_config_flow_v2) =
      Except.ok none :=
  ⟨rfl, rfl⟩

/-- C5 amended: `validate` always caches the v1 artifact under
`config_flow`; on a scoped run it returns right after doing so, skipping
the drift comparison and the v2 computation entirely (errors and the v2
cache untouched); only on an unscoped run is the v2 artifact computed and
cached under `config_flow_v2`. -/
theorem c5_caching_and_scoped_skip (ints : List (String × Integration))
    (brands : List (String × Brand)) (config : Config) (v1 : V1) (v2 : V2)
    (h1 : generate_and_validate ints = Except.ok v1)
    (h2 : _generate_v2 brands ints = Except.ok v2) :
    (config.specific_integrations = true →
      validate ints brands config =
        Except.ok { config with cache_config_flow := some (renderV1 v1) }) ∧
    (config.specific_integrations = false →
      ∃ c, validate ints brands config = Except.ok c ∧
        c.cache_config_flow = some (renderV1 v1) ∧
        c.cache_config_flow_v2 = some (renderV2 v2)) := by
  constructor
  · intro hs
    exact validate_scoped_eq h1 hs
  · intro hs
    exact ⟨_, validate_unscoped_eq h1 h2 hs, rfl, rfl⟩

/-- Witness for C5 (amended): a concrete scoped run writing only the v1
cache and leaving the run context otherwise unchanged. -/
theorem c5_caching_and_scoped_skip_witness :
    validate [] [] (emptyCacheConfig true) =
      Except.ok
        { emptyCacheConfig true with
            cache_config_flow := some (renderV1 { integration := [], helper := [] }) } :=
  (c5_caching_and_scoped_skip [] [] (emptyCacheConfig true)
      { integration := [], helper := [] } { integration := [], helper := [] } rfl rfl).1 rfl

/-- C2 counterexample: with brand `acme` listing `bee` as a member while
`bee` is itself a brand identifier, the claimed domain `bee` appears as a
top-level key under `integration` in the v2 output. -/
theorem c2_counterexample :
    (brandIntegrationDomains cexBrands).contains "bee" = true ∧
    (_generate_v2 cexBrands []).map (fun r => r.integration.map Prod.fst) =
      Except.ok ["acme", "bee"] :=
  ⟨rfl, rfl⟩

/-- C2 amended: a domain listed in some brand's integrations member list
that is not itself a brand identifier never appears as a top-level key of
the v2 output (neither under `integration` nor under `helper`); any
nested occurrence of it sits under a brand whose member list contains it,
and `helper` entries never carry a nested mapping at all. -/
theorem c2_brand_claimed_not_top_level (brands : List (String × Brand))
    (ints : List (String × Integration)) (d : String) (res : V2)
    (hd : d ∈ brandIntegrationDomains brands)
    (hnb : brands.lookup d = none)
    (hres : _generate_v2 brands ints = Except.ok res) :
    (d ∉ res.integration.map Prod.fst ∧ d ∉ res.helper.map Prod.fst) ∧
    (∀ bd meta, (bd, meta) ∈ res.integration → ∀ subs,
        meta.integrations = some subs → d ∈ subs.map Prod.fst →
        ∃ b, brands.lookup bd = some b ∧ d ∈ b.integrations.getD []) ∧
    (∀ bd meta, (bd, meta) ∈ res.helper → meta.integrations = none) := by
  obtain ⟨hint, hhelp⟩ := v2_ok_characterization hres
  have hdns : d ∉ sortedPrimaryDomains brands ints := by
    rw [mem_sortedPrimaryDomains]
    intro hmem
    rw [primaryDomains, List.mem_append] at hmem
    rcases hmem with hmem | hmem
    · obtain ⟨p, hp, rfl⟩ := List.mem_map.mp hmem
      have hcond := (List.mem_filter.mp hp).2
      rw [Bool.and_eq_true] at hcond
      have hcont : (brandIntegrationDomains brands).contains p.1 = true :=
        List.elem_iff.mpr hd
      rw [hcont] at hcond
      simpa using hcond.2
    · exact (lookup_eq_none_iff_keys brands d).mp hnb hmem
  refine ⟨⟨?_, ?_⟩, ?_, ?_⟩
  · rw [hint]
    intro hmem
    exact hdns ((mem_keys_filterMap (fun x p h => v2IntegrationEntry_key h) _ d).mp hmem).1
  · rw [hhelp]
    intro hmem
    exact hdns ((mem_keys_filterMap (fun x p h => v2HelperEntry_key h) _ d).mp hmem).1
  · intro bd meta hmem subs hsubs hdmem
    rw [hint] at hmem
    obtain ⟨x, hx, hfx⟩ := List.mem_filterMap.mp hmem
    unfold v2IntegrationEntry at hfx
    split at hfx
    · rename_i brand hbrand
      rw [Option.some.injEq, Prod.mk.injEq] at hfx
      obtain ⟨rfl, rfl⟩ := hfx
      simp only [brandMetadata] at hsubs
      split at hsubs
      · rw [Option.some.injEq] at hsubs
        subst hsubs
        exact ⟨brand, hbrand, keys_populate_mem hdmem⟩
      · cases hsubs
    · split at hfx
      · split at hfx
        · rw [Option.some.injEq, Prod.mk.injEq] at hfx
          obtain ⟨rfl, rfl⟩ := hfx
          simp [integrationMetadata] at hsubs
        · cases hfx
      · cases hfx
  · intro bd meta hmem
    rw [hhelp] at hmem
    obtain ⟨x, hx, hfx⟩ := List.mem_filterMap.mp hmem
    unfold v2HelperEntry at hfx
    split at hfx
    · cases hfx
    · split at hfx
      · split at hfx
        · rw [Option.some.injEq, Prod.mk.injEq] at hfx
          obtain ⟨rfl, rfl⟩ := hfx
          rfl
        · cases hfx
      · cases hfx

/-- Witness for C2 (amended): brand `acme` claiming the plain integration
`beta`, which then appears nowhere at the top level of the v2 output. -/
theorem c2_brand_claimed_not_top_level_witness :
    ("beta" ∉ c2WitnessRes.integration.map Prod.fst ∧
      "beta" ∉ c2WitnessRes.helper.map Prod.fst) ∧
    (∀ bd meta, (bd, meta) ∈ c2WitnessRes.integration → ∀ subs,
        meta.integrations = some subs → "beta" ∈ subs.map Prod.fst →
        ∃ b, acmeClaimBrands.lookup bd = some b ∧ "beta" ∈ b.integrations.getD []) ∧
    (∀ bd meta, (bd, meta) ∈ c2WitnessRes.helper → meta.integrations = none) :=
  c2_brand_claimed_not_top_level acmeClaimBrands exIntegrations "beta" c2WitnessRes
    (by simp [brandIntegrationDomains, acmeClaimBrands, acmeClaimBrand]) rfl rfl

/-- C3: under well-formed inputs (dict keys distinct, every qualifying
integration typed `integration` or `helper`), the v1 generator succeeds
and every domain with a truthy manifest and config-flow flag lands in
exactly the list matching its integration type, both lists are sorted
alphabetically (code-point order), and non-qualifying domains appear in
neither list. -/
theorem c3_v1_partition (ints : List (String × Integration))
    (hnd : (ints.map Prod.fst).Nodup)
    (htypes : ∀ p ∈ ints, p.2.qualifies = true →
      p.2.integration_type = "integration" ∨ p.2.integration_type = "helper") :
    ∃ v1, generate_and_validate ints = Except.ok v1 ∧
      v1.integration.Sorted pyStrLe ∧ v1.helper.Sorted pyStrLe ∧
      ∀ d i, (d, i) ∈ ints →
        ((d ∈ v1.integration ↔ i.qualifies = true ∧ i.integration_type = "integration") ∧
         (d ∈ v1.helper ↔ i.qualifies = true ∧ i.integration_type = "helper")) := by
  have hok : ∀ d ∈ sortedKeys ints, v1EntryOk ints d = true := by
    intro d hdm
    rw [mem_sortedKeys] at hdm
    obtain ⟨p, hp, rfl⟩ := List.mem_map.mp hdm
    have hlk : ints.lookup p.1 = some p.2 := lookup_eq_some_of_nodup hnd (by simpa using hp)
    by_cases hq : p.2.qualifies = true
    · rcases htypes p hp hq with ht | ht <;> simp [v1EntryOk, hlk, ht]
    · have hq' : p.2.qualifies = false := by simpa using hq
      simp [v1EntryOk, hlk, hq']
  refine ⟨{ integration := (sortedKeys ints).filter (picksType ints "integration"),
            helper := (sortedKeys ints).filter (picksType ints "helper") }, ?_, ?_, ?_, ?_⟩
  · have h := generateDomainsGo_eq ints (sortedKeys ints)
      { integration := [], helper := [] } hok
    rw [generate_and_validate, h]
    simp
  · exact (sorted_sortedKeys ints).filter _
  · exact (sorted_sortedKeys ints).filter _
  · intro d i hmem
    have hlk : ints.lookup d = some i := lookup_eq_some_of_nodup hnd hmem
    have hkm : d ∈ ints.map Prod.fst := List.mem_map.mpr ⟨(d, i), hmem, rfl⟩
    constructor
    · rw [List.mem_filter]
      simp [picksType, hlk, mem_sortedKeys, hkm]
    · rw [List.mem_filter]
      simp [picksType, hlk, mem_sortedKeys, hkm]

/-- Witness for C3 at a concrete three-integration dict. -/
theorem c3_v1_partition_witness :
    ∃ v1, generate_and_validate exIntegrations = Except.ok v1 ∧
      v1.integration.Sorted pyStrLe ∧ v1.helper.Sorted pyStrLe ∧
      ∀ d i, (d, i) ∈ exIntegrations →
        ((d ∈ v1.integration ↔ i.qualifies = true ∧ i.integration_type = "integration") ∧
         (d ∈ v1.helper ↔ i.qualifies = true ∧ i.integration_type = "helper")) :=
  c3_v1_partition exIntegrations (by decide) (by decide)

/-- C10: a primary domain matching a brand is always emitted under the
`integration` top-level key with the brand's metadata (whose `name` is the
brand's display name), never under `helper`, regardless of any same-named
integration's own name or type. -/
theorem c10_brand_in_integration_bucket (brands : List (String × Brand))
    (ints : List (String × Integration)) (d : String) (b : Brand) (res : V2)
    (hb : brands.lookup d = some b)
    (hres : _generate_v2 brands ints = Except.ok res) :
    res.integration.lookup d = some (brandMetadata ints b) ∧
    (brandMetadata ints b).name = b.name ∧
    d ∉ res.helper.map Prod.fst := by
  obtain ⟨hint, hhelp⟩ := v2_ok_characterization hres
  have hdm : d ∈ sortedPrimaryDomains brands ints := by
    rw [mem_sortedPrimaryDomains, primaryDomains, List.mem_append]
    exact Or.inr (mem_keys_of_lookup_eq_some hb)
  have hie : v2IntegrationEntry brands ints d = some (d, brandMetadata ints b) := by
    simp [v2IntegrationEntry, hb]
  refine ⟨?_, rfl, ?_⟩
  · rw [hint]
    exact lookup_eq_some_of_nodup
      (nodup_keys_filterMap (fun x p h => v2IntegrationEntry_key h) _
        (nodup_sortedPrimaryDomains brands ints))
      (List.mem_filterMap.mpr ⟨d, hdm, hie⟩)
  · rw [hhelp]
    intro hmem
    have hsome := ((mem_keys_filterMap (fun x p h => v2HelperEntry_key h) _ d).mp hmem).2
    rw [show v2HelperEntry brands ints d = none from by simp [v2HelperEntry, hb]] at hsome
    cases hsome

/-- Witness for C10: brand `acme` shadowing a same-named helper-type
integration; the brand lands under `integration` with the brand name. -/
theorem c10_brand_in_integration_bucket_witness :
    (V2.mk [("acme", brandMetadata shadowIntegrations
        { name := "Acme", integrations := none, iot_standards := none })]
      []).integration.lookup "acme" =
      some (brandMetadata shadowIntegrations
        { name := "Acme", integrations := none, iot_standards := none }) ∧
    (brandMetadata shadowIntegrations
        { name := "Acme", integrations := none, iot_standards := none }).name = "Acme" ∧
    "acme" ∉ (V2.mk [("acme", brandMetadata shadowIntegrations
        { name := "Acme", integrations := none, iot_standards := none })]
      []).helper.map Prod.fst :=
  c10_brand_in_integration_bucket shadowBrands shadowIntegrations "acme"
    { name := "Acme", integrations := none, iot_standards := none }
    (V2.mk [("acme", brandMetadata shadowIntegrations
        { name := "Acme", integrations := none, iot_standards := none })] [])
    rfl rfl

/-- C8 counterexample: `hubx` qualifies and has integration type `hub`,
outside the two bucket keys, yet `_generate_v2` succeeds because a brand
references `hubx`, so the type lookup is never reached. -/
theorem c8_counterexample :
    hubIntegration.qualifies = true ∧
    hubIntegration.integration_type ≠ "integration" ∧
    hubIntegration.integration_type ≠ "helper" ∧
    (_generate_v2 hubBrands hubIntegrations).isOk = true := by
  refine ⟨rfl, ?_, ?_, rfl⟩ <;> decide

/-- C8 amended: with distinct dict keys, both generators are total when
every qualifying integration is typed `integration` or `helper`;
`generate_and_validate` fails (`KeyError`) whenever some qualifying
integration has another type, while `_generate_v2` fails for such an
integration only when it is additionally neither referenced by any
brand's member list nor itself a brand identifier. -/
theorem c8_totality (ints : List (String × Integration))
    (brands : List (String × Brand)) (hnd : (ints.map Prod.fst).Nodup) :
    ((∀ p ∈ ints, p.2.qualifies = true →
        p.2.integration_type = "integration" ∨ p.2.integration_type = "helper") →
      (generate_and_validate ints).isOk = true ∧ (_generate_v2 brands ints).isOk = true) ∧
    (∀ d i, (d, i) ∈ ints → i.qualifies = true →
      i.integration_type ≠ "integration" → i.integration_type ≠ "helper" →
      (generate_and_validate ints).isOk = false ∧
      (d ∉ brandIntegrationDomains brands → brands.lookup d = none →
        (_generate_v2 brands ints).isOk = false)) := by
  constructor
  · intro htypes
    constructor
    · have hok : ∀ d ∈ sortedKeys ints, v1EntryOk ints d = true := by
        intro d hdm
        rw [mem_sortedKeys] at hdm
        obtain ⟨p, hp, rfl⟩ := List.mem_map.mp hdm
        have hlk : ints.lookup p.1 = some p.2 :=
          lookup_eq_some_of_nodup hnd (by simpa using hp)
        by_cases hq : p.2.qualifies = true
        · rcases htypes p hp hq with ht | ht <;> simp [v1EntryOk, hlk, ht]
        · have hq' : p.2.qualifies = false := by simpa using hq
          simp [v1EntryOk, hlk, hq']
      rw [generate_and_validate, generateDomainsGo_eq ints _ _ hok]
      rfl
    · have hok : ∀ d ∈ sortedPrimaryDomains brands ints, v2EntryOk brands ints d = true := by
        intro d hdm
        rw [mem_sortedPrimaryDomains, primaryDomains, List.mem_append] at hdm
        cases hb : brands.lookup d with
        | some brand => simp [v2EntryOk, hb]
        | none =>
          rcases hdm with hdm | hdm
          · obtain ⟨p, hp, rfl⟩ := List.mem_map.mp hdm
            have hpmem := List.mem_filter.mp hp
            have hlk : ints.lookup p.1 = some p.2 :=
              lookup_eq_some_of_nodup hnd (by simpa using hpmem.1)
            have hq : p.2.qualifies = true := by
              have hcond := hpmem.2
              rw [Bool.and_eq_true] at hcond
              exact hcond.1
            rcases htypes p hpmem.1 hq with ht | ht <;> simp [v2EntryOk, hb, hlk, ht]
          · exact absurd hdm ((lookup_eq_none_iff_keys brands d).mp hb)
      rw [_generate_v2, generateV2Go_eq brands ints _ _ hok]
      rfl
  · intro d i hmem hq hti hth
    have hlk : ints.lookup d = some i := lookup_eq_some_of_nodup hnd hmem
    have hbi : (i.integration_type == "integration") = false := beq_eq_false_iff_ne.mpr hti
    have hbh : (i.integration_type == "helper") = false := beq_eq_false_iff_ne.mpr hth
    constructor
    · apply generateDomainsGo_isOk_eq_false
      refine ⟨d, ?_, ?_⟩
      · rw [mem_sortedKeys]
        exact List.mem_map.mpr ⟨(d, i), hmem, rfl⟩
      · simp [v1EntryOk, hlk, hq, hbi, hbh]
    · intro hnc hnb
      apply generateV2Go_isOk_eq_false
      refine ⟨d, ?_, ?_⟩
      · rw [mem_sortedPrimaryDomains, primaryDomains, List.mem_append]
        left
        refine List.mem_map.mpr ⟨(d, i), ?_, rfl⟩
        rw [List.mem_filter]
        refine ⟨hmem, ?_⟩
        rw [Bool.and_eq_true]
        refine ⟨hq, ?_⟩
        cases hc : (brandIntegrationDomains brands).contains d with
        | false => rfl
        | true => exact absurd (List.elem_iff.mp hc) hnc
      · simp [v2EntryOk, hnb, hlk, hbi, hbh]

/-- Witness for C8 (amended): a well-typed dict on which both generators
succeed, and a badly-typed one on which the v1 generator fails. -/
theorem c8_totality_witness :
    ((generate_and_validate exIntegrations).isOk = true ∧
      (_generate_v2 cexBrands exIntegrations).isOk = true) ∧
    (generate_and_validate hubIntegrations).isOk = false :=
  ⟨(c8_totality exIntegrations cexBrands (by decide)).1 (by decide),
    ((c8_totality hubIntegrations [] (by decide)).2 "hubx" hubIntegration (by decide)
        rfl (by decide) (by decide)).1⟩
